/-
  Verification of the mpc-stark MPC runtime against its specification.

  The development shallowly embeds the repository's code:
  * the dataflow executor (src/fabric/executor.rs) as explicit state passing
    over buffers modelled as partial maps;
  * the SPDZ authenticated point algebra (src/algebra/authenticated_stark_point.rs)
    as pure functions over values, with a fresh-id counter standing for the
    fabric's monotone id allocator where gate scheduling matters;
  * the legacy MpcScalar layer (src/mpc_scalar.rs) as pure functions with the
    peer's network messages passed as explicit arguments.

  The Stark curve group and the Ristretto group are treated as black boxes
  (as the specification prescribes): each is a cyclic group of known prime
  order, modelled by its isomorphic copy `ZMod order`.
-/
import Mathlib

/-- The order of the Stark curve group (equivalently, the order of its scalar
field): a 252-bit prime, from the published Starknet curve parameters. -/
def starkCurveOrder : Nat :=
  3618502788666131213697322783095070105526743751716087489154079457884512865583

/-- The scalar field of the Stark curve, `Scalar` in the source. -/
abbrev Scalar := ZMod starkCurveOrder

/-- The Stark curve group. The source treats curve arithmetic as a black box
(ark-ec); the group is cyclic of prime order `starkCurveOrder`, so we model it
by its isomorphic copy `ZMod starkCurveOrder`, with scalar multiplication
given by field multiplication. -/
abbrev StarkPoint := ZMod starkCurveOrder

/-- `StarkPoint::identity` / `StarkPoint::zero`: the additive identity of the
curve group. -/
def StarkPoint.identityPt : StarkPoint := 0

/-- `StarkPoint::generator`: the group generator (the cyclic generator `1` in
the isomorphic model). -/
def StarkPoint.generatorPt : StarkPoint := 1

/-- Scalar multiplication `point * scalar` of the curve group, written
multiplicatively in the cyclic model. -/
def StarkPoint.smul (p : StarkPoint) (s : Scalar) : StarkPoint := p * s

instance : Fact (1 < starkCurveOrder) := ⟨by norm_num [starkCurveOrder]⟩

-- ----------------------------------------------------------------
-- Executor data model (src/fabric/executor.rs and its data types)
-- ----------------------------------------------------------------

/-- Modelled from the spec: `ResultValue` is a tagged value carrying one of a
scalar, a curve point, a batch of scalars, a batch of points, or a network
payload (the defining file is not under src/; this follows section 3 of the
spec). The payload variant is represented by the value it deserializes to,
so the payload-to-result conversion is the identity. -/
inductive ResultValue where
  | scalar (s : Scalar)
  | point (p : StarkPoint)
  | scalarBatch (l : List Scalar)
  | pointBatch (l : List StarkPoint)
  deriving DecidableEq

/-- Modelled from the spec: a network payload is the transport form of a
`ResultValue`; serialization is out of scope, so the two coincide here. -/
def NetworkPayload := ResultValue

/-- Modelled from the spec: `payload.into()` converts a network payload into
the result value it carries; at value level this is the identity. -/
def NetworkPayload.toResultValue (p : NetworkPayload) : ResultValue := p

/-- `OpResult`: the pair of a result id and its value, published to the
executor when a gate finishes. -/
structure OpResult where
  id : Nat
  value : ResultValue

/-- `OperationType`: the three kinds of gates dispatched by
`Executor::compute_result`. -/
inductive OperationType where
  | gate (function : List ResultValue → ResultValue)
  | gateBatch (function : List ResultValue → List ResultValue)
  | network (function : List ResultValue → NetworkPayload)

/-- Modelled from the spec: `Operation` is
`(id, args, result_ids: one or more ResultId, op_type, inflight_args)`
(the defining file is not under src/; this follows section 3 of the spec).
`inflight_args` is scratch space used by the executor only. -/
structure Operation where
  id : Nat
  args : List Nat
  result_ids : List Nat
  op_type : OperationType
  inflight_args : Nat

/-- The operation's single result id (`op.result_id` in the source): the first
of its result ids. The spec guarantees `result_ids` is non-empty. -/
def Operation.result_id (op : Operation) : Nat := op.result_ids.headD 0

/-- Modelled from the spec: `GrowableBuffer`, a dense array indexed by id with
`get`, `insert` (returning the previous value), `take`, and absent reads for
undefined entries (src/buffer.rs is not under src/; this follows section 4.1
of the spec). Growth is a performance detail and is not modelled. -/
def GrowableBuffer (α : Type) := Nat → Option α

/-- `GrowableBuffer::get`. -/
def GrowableBuffer.get {α : Type} (b : GrowableBuffer α) (id : Nat) : Option α := b id

/-- `GrowableBuffer::insert`: stores `v` at `id` and returns the previous
entry together with the updated buffer. -/
def GrowableBuffer.insert {α : Type} (b : GrowableBuffer α) (id : Nat) (v : α) :
    Option α × GrowableBuffer α :=
  (b id, fun j => if j = id then some v else b j)

/-- `GrowableBuffer::take`: removes and returns the entry at `id`. -/
def GrowableBuffer.take {α : Type} (b : GrowableBuffer α) (id : Nat) :
    Option α × GrowableBuffer α :=
  (b id, fun j => if j = id then none else b j)

/-- The empty buffer: every entry reads as absent. -/
def GrowableBuffer.empty {α : Type} : GrowableBuffer α := fun _ => none

/-- Modelled from the spec: `ResultWaiter` is `(result_id, result_buffer,
waker)`; the shared buffer and waker are abstracted into an identifier, and a
wake is recorded in the executor's `woken` log. -/
structure ResultWaiter where
  result_id : Nat
  buffer_id : Nat

/-- `NetworkOutbound`: an outbound message tagged with the result id of the
network operation that produced it. -/
structure NetworkOutbound where
  result_id : Nat
  payload : NetworkPayload

/-- The executor's state: the operation buffer, the reverse-dependency index,
the results buffer, the waiter index, plus the outbound network queue (owned
by the fabric in the source, threaded through the state here) and a log of
the values delivered to woken waiters. -/
structure Executor where
  operations : GrowableBuffer Operation
  dependencies : GrowableBuffer (List Nat)
  results : GrowableBuffer OpResult
  waiters : Nat → List ResultWaiter
  outbound : List NetworkOutbound
  woken : List (Nat × ResultValue)

/-- The executor with all buffers empty. -/
def Executor.initial : Executor where
  operations := GrowableBuffer.empty
  dependencies := GrowableBuffer.empty
  results := GrowableBuffer.empty
  waiters := fun _ => []
  outbound := []
  woken := []

/-- `Executor::insert_result`: insert a result into the results buffer; the
assertion that no previous entry existed becomes the error case (a panic
aborts the executor). -/
def Executor.insert_result (self : Executor) (result : OpResult) :
    Except String Executor :=
  let (prev, buf) := self.results.insert result.id result
  match prev with
  | some _ => .error "duplicate result id"
  | none => .ok { self with results := buf }

/-- `Executor::append_ready_ops`: for each operation waiting on `id`,
decrement its `inflight_args`; operations that reach zero are pushed onto the
ready stack. The `unwrap` on a missing operation is the error case. The ready
stack is a Vec used as a stack in the source; it is represented here with its
top at the head, so a push is a cons. -/
def Executor.append_ready_ops (self : Executor) (id : Nat) (ready_ops : List Nat) :
    Except String (Executor × List Nat) :=
  match self.dependencies.get id with
  | none => .ok (self, ready_ops)
  | some deps =>
    deps.foldlM
      (fun (acc : Executor × List Nat) op_id =>
        let (s, ready) := acc
        match s.operations.get op_id with
        | none => .error "unwrap on missing operation"
        | some operation =>
          let operation := { operation with inflight_args := operation.inflight_args - 1 }
          let s := { s with operations := (s.operations.insert op_id operation).2 }
          if operation.inflight_args > 0 then .ok (s, ready)
          else .ok (s, op_id :: ready))
      (self, ready_ops)

/-- `Executor::compute_result`: collect the argument values (the `unwrap` on a
missing result is the error case) and dispatch on the operation type. A Gate
publishes one result; a GateBatch zips the result ids with the outputs; a
Network operation sends the payload on the outbound queue and publishes the
same payload locally under the first result id. -/
def Executor.compute_result (self : Executor) (op : Operation) :
    Except String (List OpResult × Executor) :=
  let result_ids := op.result_ids
  match op.args.mapM (fun arg => (self.results.get arg).map OpResult.value) with
  | none => .error "unwrap on missing result"
  | some inputs =>
    match op.op_type with
    | .gate function =>
      .ok ([⟨op.result_id, function inputs⟩], self)
    | .gateBatch function =>
      let output := function inputs
      .ok ((result_ids.zip output).map (fun p => ⟨p.1, p.2⟩), self)
    | .network function =>
      match result_ids with
      | [] => .error "index out of bounds"
      | rid :: _ =>
        let payload := function inputs
        let self := { self with outbound := self.outbound ++ [⟨rid, payload⟩] }
        .ok ([⟨rid, payload.toResultValue⟩], self)

/-- `Executor::wake_waiters_on_result`: deliver the stored result to every
waiter registered under `result_id` (recorded in the `woken` log) and drop
them. The `unwrap` on a missing result is the error case; it is unreachable
when no waiters are registered, matching the source's `remove` guard. -/
def Executor.wake_waiters_on_result (self : Executor) (result_id : Nat) :
    Except String Executor :=
  match self.waiters result_id with
  | [] => .ok self
  | ws =>
    match self.results.get result_id with
    | none => .error "unwrap on missing result"
    | some res =>
      .ok { self with
            waiters := fun j => if j = result_id then [] else self.waiters j,
            woken := self.woken ++ ws.map (fun w => (w.buffer_id, res.value)) }

/-- The body of one iteration of `Executor::execute_operations`: take the
operation out of the buffer, compute it, and for each produced result append
the newly-ready operations, insert the result, and wake its waiters. -/
def Executor.execute_one (self : Executor) (op_id : Nat) (ops : List Nat) :
    Except String (Executor × List Nat) := do
  match self.operations.take op_id with
  | (none, _) => .error "unwrap on missing operation"
  | (some op, ops_buf) =>
    let s := { self with operations := ops_buf }
    let (res, s) ← s.compute_result op
    res.foldlM
      (fun (acc : Executor × List Nat) result => do
        let (s, ops) := acc
        let (s, ops) ← s.append_ready_ops result.id ops
        let s ← s.insert_result result
        let s ← s.wake_waiters_on_result result.id
        pure (s, ops))
      (s, ops)

/-- `Executor::execute_operations`: drain the ready stack, recursively
executing operations that become ready. The source's while loop is given a
fuel parameter for termination; exhausted fuel is a model artifact reported
as an error. -/
def Executor.execute_operations (fuel : Nat) (self : Executor) (ops : List Nat) :
    Except String Executor :=
  match ops with
  | [] => .ok self
  | op_id :: rest =>
    match fuel with
    | 0 => .error "fuel exhausted"
    | fuel' + 1 => do
      let (s, ops') ← self.execute_one op_id rest
      Executor.execute_operations fuel' s ops'

/-- `Executor::handle_new_result`: insert the result (duplicate ids abort),
then execute every operation made ready by it. -/
def Executor.handle_new_result (fuel : Nat) (self : Executor) (result : OpResult) :
    Except String Executor := do
  let id := result.id
  let s ← self.insert_result result
  let (s, ops_queue) ← s.append_ready_ops id []
  Executor.execute_operations fuel s ops_queue

/-- The body of the dependency-registration loop in `handle_new_operation`:
the `entry_mut` of the argument's dependent list, created empty if absent,
with the operation's id pushed onto it. -/
def pushDependent (op_id : Nat) (d : GrowableBuffer (List Nat)) (arg : Nat) :
    GrowableBuffer (List Nat) :=
  (d.insert arg (((d.get arg).getD []) ++ [op_id])).2

/-- `Executor::handle_new_operation`: count the ready arguments, set
`inflight_args` to the remainder; if zero, store the operation and execute it
immediately; otherwise append the operation's id to the dependent list of
each argument (the source iterates over all of `op.args`) and store it. -/
def Executor.handle_new_operation (fuel : Nat) (self : Executor) (op : Operation) :
    Except String Executor :=
  let n_ready := (op.args.filterMap (fun id => self.results.get id)).length
  let inflight_args := op.args.length - n_ready
  let op := { op with inflight_args := inflight_args }
  if inflight_args = 0 then
    let id := op.id
    let s := { self with operations := (self.operations.insert id op).2 }
    Executor.execute_operations fuel s [id]
  else
    let deps := op.args.foldl (pushDependent op.id) self.dependencies
    let s := { self with dependencies := deps }
    .ok { s with operations := (s.operations.insert op.id op).2 }

/-- `Executor::handle_new_waiter`: index the waiter under its result id; if
the result already exists, wake immediately. -/
def Executor.handle_new_waiter (self : Executor) (waiter : ResultWaiter) :
    Except String Executor :=
  let s := { self with
             waiters := fun j =>
               if j = waiter.result_id then self.waiters j ++ [waiter]
               else self.waiters j }
  if (s.results.get waiter.result_id).isSome then
    s.wake_waiters_on_result waiter.result_id
  else .ok s

-- ----------------------------------------------------------------
-- Authenticated point algebra
-- (src/algebra/authenticated_stark_point.rs, src/algebra/stark_curve.rs)
-- ----------------------------------------------------------------

/-- A result handle over a point, collapsed to its id and the value its gate
computes (every gate in the point algebra is pure, so the handle's eventual
value is determined at scheduling time). -/
structure PointResult where
  id : Nat
  val : StarkPoint

/-- Allocate a new gate in the fabric: the id counter stands for the fabric's
monotone id allocator; the gate's computed value is carried alongside. -/
def newPointGate (next : Nat) (v : StarkPoint) : PointResult × Nat :=
  (⟨next, v⟩, next + 1)

/-- `StarkPointResult + StarkPoint` (src/algebra/stark_curve.rs): a gate
computing the sum; public values carry no party split. -/
def StarkPointResult.addConst (next : Nat) (x : PointResult) (c : StarkPoint) :
    PointResult × Nat :=
  newPointGate next (x.val + c)

/-- `StarkPointResult - StarkPoint` (src/algebra/stark_curve.rs): a gate
computing the difference. -/
def StarkPointResult.subConst (next : Nat) (x : PointResult) (c : StarkPoint) :
    PointResult × Nat :=
  newPointGate next (x.val - c)

/-- `StarkPointResult + StarkPointResult` (src/algebra/stark_curve.rs): a gate
computing the sum of two handles. -/
def StarkPointResult.addRes (next : Nat) (x y : PointResult) : PointResult × Nat :=
  newPointGate next (x.val + y.val)

/-- Modelled from the spec: the single-layer `MpcStarkPoint` addition of a
share and a public constant (src/algebra/mpc_stark_point.rs is not under
src/): party 0 adds the constant to its share; party 1 leaves its share
unchanged but schedules an identity gate for ordering parity (section 4.6). -/
def MpcStarkPointResult.addConst (party next : Nat) (x : PointResult) (c : StarkPoint) :
    PointResult × Nat :=
  if party = 0 then newPointGate next (x.val + c)
  else newPointGate next (x.val + StarkPoint.identityPt)

/-- Modelled from the spec: single-layer subtraction of a public constant,
symmetric to addition (section 4.6). -/
def MpcStarkPointResult.subConst (party next : Nat) (x : PointResult) (c : StarkPoint) :
    PointResult × Nat :=
  if party = 0 then newPointGate next (x.val - c)
  else newPointGate next (x.val - StarkPoint.identityPt)

/-- Modelled from the spec: single-layer negation negates the share on both
parties (section 4.6). -/
def MpcStarkPointResult.negRes (next : Nat) (x : PointResult) : PointResult × Nat :=
  newPointGate next (-x.val)

/-- Modelled from the spec: single-layer addition of two shares is the local
addition of shares (section 4.6). -/
def MpcStarkPointResult.addRes (next : Nat) (x y : PointResult) : PointResult × Nat :=
  newPointGate next (x.val + y.val)

/-- Modelled from the spec: single-layer subtraction of two shares
(section 4.6). -/
def MpcStarkPointResult.subRes (next : Nat) (x y : PointResult) : PointResult × Nat :=
  newPointGate next (x.val - y.val)

/-- Modelled from the spec: the single-layer unauthenticated open schedules a
network exchange of the share and a local sum gate; the reconstructed
plaintext is the sum of the two parties' shares (section 4.6). There is no
MAC check on this path. -/
def MpcStarkPointResult.openShare (myShare peerShare : StarkPoint) : StarkPoint :=
  myShare + peerShare

/-- `AuthenticatedStarkPointResult`: the SPDZ triple of a share, a MAC share,
and a public modifier. -/
structure AuthenticatedStarkPointResult where
  share : PointResult
  mac : PointResult
  public_modifier : PointResult

/-- `AuthenticatedStarkPointResult + StarkPoint`
(src/algebra/authenticated_stark_point.rs): party 0 adds the public value to
its share, other parties add the identity to keep ids in sync; the MAC is
cloned unchanged and the public modifier becomes `modifier - c`. -/
def AuthenticatedStarkPointResult.addConst (party next : Nat)
    (x : AuthenticatedStarkPointResult) (c : StarkPoint) :
    AuthenticatedStarkPointResult × Nat :=
  let (new_share, next) :=
    if party = 0 then MpcStarkPointResult.addConst party next x.share c
    else MpcStarkPointResult.addConst party next x.share StarkPoint.identityPt
  let (new_modifier, next) := StarkPointResult.subConst next x.public_modifier c
  ({ share := new_share, mac := x.mac, public_modifier := new_modifier }, next)

/-- `AuthenticatedStarkPointResult - StarkPoint`
(src/algebra/authenticated_stark_point.rs): party 0 subtracts the public
value, other parties subtract the identity; the MAC is cloned unchanged and
the public modifier becomes `modifier + c`. -/
def AuthenticatedStarkPointResult.subConst (party next : Nat)
    (x : AuthenticatedStarkPointResult) (c : StarkPoint) :
    AuthenticatedStarkPointResult × Nat :=
  let (new_share, next) :=
    if party = 0 then MpcStarkPointResult.subConst party next x.share c
    else MpcStarkPointResult.subConst party next x.share StarkPoint.identityPt
  let (new_modifier, next) := StarkPointResult.addConst next x.public_modifier c
  ({ share := new_share, mac := x.mac, public_modifier := new_modifier }, next)

/-- `AuthenticatedStarkPointResult + AuthenticatedStarkPointResult`
(src/algebra/authenticated_stark_point.rs): shares add, MACs add, and the
public modifiers add. -/
def AuthenticatedStarkPointResult.addRes (next : Nat)
    (x y : AuthenticatedStarkPointResult) :
    AuthenticatedStarkPointResult × Nat :=
  let (new_share, next) := MpcStarkPointResult.addRes next x.share y.share
  let (new_mac, next) := MpcStarkPointResult.addRes next x.mac y.mac
  let (new_modifier, next) :=
    StarkPointResult.addRes next x.public_modifier y.public_modifier
  ({ share := new_share, mac := new_mac, public_modifier := new_modifier }, next)

/-- `AuthenticatedStarkPointResult - AuthenticatedStarkPointResult`
(src/algebra/authenticated_stark_point.rs): shares subtract, MACs subtract,
and the result's public modifier is the left operand's modifier, cloned
unchanged. -/
def AuthenticatedStarkPointResult.subRes (next : Nat)
    (x y : AuthenticatedStarkPointResult) :
    AuthenticatedStarkPointResult × Nat :=
  let (new_share, next) := MpcStarkPointResult.subRes next x.share y.share
  let (new_mac, next) := MpcStarkPointResult.subRes next x.mac y.mac
  ({ share := new_share, mac := new_mac, public_modifier := x.public_modifier }, next)

/-- `Neg for AuthenticatedStarkPointResult`
(src/algebra/authenticated_stark_point.rs): the share and MAC are negated;
the public modifier is cloned unchanged. -/
def AuthenticatedStarkPointResult.negRes (next : Nat)
    (x : AuthenticatedStarkPointResult) :
    AuthenticatedStarkPointResult × Nat :=
  let (new_share, next) := MpcStarkPointResult.negRes next x.share
  let (new_mac, next) := MpcStarkPointResult.negRes next x.mac
  ({ share := new_share, mac := new_mac, public_modifier := x.public_modifier }, next)

/-- `AuthenticatedStarkPointResult::open`: opens the underlying share without
checking the MAC (the MAC and modifier are ignored entirely). -/
def AuthenticatedStarkPointResult.openNoMac (x : AuthenticatedStarkPointResult)
    (peerShare : StarkPoint) : StarkPoint :=
  MpcStarkPointResult.openShare x.share.val peerShare

/-- `Sum for AuthenticatedStarkPointResult`: requires a non-empty iterator
(the `expect` on an empty one is the `none` case) and folds authenticated
addition over the remaining elements starting from the first element. -/
def AuthenticatedStarkPointResult.sumList (next : Nat)
    (l : List AuthenticatedStarkPointResult) :
    Option (AuthenticatedStarkPointResult × Nat) :=
  match l with
  | [] => none
  | first :: rest =>
    some (rest.foldl
      (fun acc x => AuthenticatedStarkPointResult.addRes acc.2 acc.1 x)
      (first, next))

-- ----------------------------------------------------------------
-- Authenticated open of a point (src/algebra/authenticated_stark_point.rs)
-- ----------------------------------------------------------------

/-- The body of the MAC-check gate scheduled by `open_authenticated`:
`(value + modifier) * mac_key_share - mac_share` over the opened value. -/
def macCheckGate (mac_key_share : Scalar) (value modifier mac_share : StarkPoint) :
    StarkPoint :=
  StarkPoint.smul (value + modifier) mac_key_share - mac_share

/-- The body of the commitment-check gate scheduled by `open_authenticated`:
verify the peer's hash commitment over its MAC-check value and blinder, then
check that the two MAC-check shares add to the curve group identity;
returns the scalar flag 1 on success and 0 on any failure. The hash is a
parameter (the commitment module is not under src/; per section 4.8 of the
spec it is a collision- and hiding-secure hash of the value and blinder). -/
def commitmentCheckGate (hash : StarkPoint → Scalar → Scalar)
    (my_mac_check peer_mac_check : StarkPoint)
    (peer_blinder peer_commitment : Scalar) : Scalar :=
  if hash peer_mac_check peer_blinder ≠ peer_commitment then 0
  else if my_mac_check + peer_mac_check ≠ StarkPoint.identityPt then 0
  else 1

/-- `AuthenticatedStarkPointOpenResult`: the opened value together with the
result of the MAC check. -/
structure AuthenticatedStarkPointOpenResult where
  value : StarkPoint
  mac_check : Scalar

/-- `MpcError`: the error kinds surfaced to callers. -/
inductive MpcError where
  | authenticationError
  | visibilityError (msg : String)
  | networkFailure
  deriving DecidableEq

/-- `AuthenticatedStarkPointResult::open_authenticated`: open the share
without a MAC check, schedule the local MAC-check gate over the opened value,
exchange commitments and then MAC-check values and blinders with the peer,
and schedule the commitment-check gate producing the flag. The peer's
messages are explicit arguments. -/
def AuthenticatedStarkPointResult.open_authenticated
    (hash : StarkPoint → Scalar → Scalar) (mac_key_share : Scalar)
    (x : AuthenticatedStarkPointResult)
    (peer_share peer_mac_check : StarkPoint)
    (peer_blinder peer_commitment : Scalar) :
    AuthenticatedStarkPointOpenResult :=
  let recovered_value := x.openNoMac peer_share
  let mac_check :=
    macCheckGate mac_key_share recovered_value x.public_modifier.val x.mac.val
  let flag :=
    commitmentCheckGate hash mac_check peer_mac_check peer_blinder peer_commitment
  { value := recovered_value, mac_check := flag }

/-- `Future for AuthenticatedStarkPointOpenResult`: the final poll returns
`Ok(value)` when the MAC-check flag equals 1 and an authentication error
otherwise. -/
def AuthenticatedStarkPointOpenResult.poll
    (self : AuthenticatedStarkPointOpenResult) : Except MpcError StarkPoint :=
  if self.mac_check = (1 : Scalar) then .ok self.value
  else .error .authenticationError

-- ----------------------------------------------------------------
-- Legacy MpcScalar layer (src/mpc_scalar.rs)
-- ----------------------------------------------------------------

/-- The order of the Ristretto group and of the curve25519-dalek scalar
field: the prime `2^252 + 27742317777372353535851937790883648493`. -/
def dalekOrder : Nat :=
  7237005577332262213973186563042994240857116359379907606001950938285454250989

/-- The curve25519-dalek scalar field underlying `MpcScalar`. -/
abbrev DalekScalar := ZMod dalekOrder

/-- The Ristretto group, treated as a black box: cyclic of prime order
`dalekOrder`, modelled by its isomorphic copy `ZMod dalekOrder`. -/
abbrev RistrettoPoint := ZMod dalekOrder

/-- Modelled from the spec: `Visibility` of a value in the MPC network, one
of private, shared, or public (the defining file is not under src/). -/
inductive Visibility where
  | privateVis
  | sharedVis
  | publicVis
  deriving DecidableEq

/-- Modelled from the spec: the rank of a visibility, private being the most
restrictive and public the least. -/
def Visibility.rank : Visibility → Nat
  | .privateVis => 0
  | .sharedVis => 1
  | .publicVis => 2

/-- Modelled from the spec: `Visibility::min_visibility_two` returns the more
restrictive of the two operands' visibilities. -/
def Visibility.minVisibilityTwo (a b : Visibility) : Visibility :=
  if a.rank ≤ b.rank then a else b

/-- `MpcScalar`: a scalar allocated in the MPC network, carrying its value
and visibility (the network and Beaver-source handles carry no data and are
modelled by passing the peer's messages and the triples explicitly). -/
structure MpcScalar where
  value : DalekScalar
  visibility : Visibility
  deriving DecidableEq

/-- `MpcScalar::is_shared`. -/
def MpcScalar.is_shared (x : MpcScalar) : Bool := x.visibility = Visibility.sharedVis

/-- `MpcScalar::is_public`. -/
def MpcScalar.is_public (x : MpcScalar) : Bool := x.visibility = Visibility.publicVis

/-- `MpcNetworkError`: a transport failure; the type carried by `open`'s
error case. It has no visibility variant. -/
inductive MpcNetworkError where
  | sendError
  | recvError
  deriving DecidableEq

/-- `MpcScalar::open`: a public value is returned unchanged; otherwise the
party broadcasts its share, receives the peer's (`received` here), and
reconstructs the plaintext as the sum, marked public. The only error case of
the source signature is a network error, which the abstract reliable channel
never produces. -/
def MpcScalar.openShare (x : MpcScalar) (received : DalekScalar) :
    Except MpcNetworkError MpcScalar :=
  if x.is_public then .ok x
  else .ok { value := x.value + received, visibility := Visibility.publicVis }

/-- `MpcScalar::commit_and_open`: only a shared value may be committed and
opened; the parties exchange Pedersen commitments, open them, and the peer's
opening is verified against its commitment, failing with an authentication
error. The Pedersen commitment (whose module is not under src/) is a
parameter `pedersen blinding value`. -/
def MpcScalar.commit_and_open (pedersen : DalekScalar → DalekScalar → RistrettoPoint)
    (x : MpcScalar) (peer_commitment : RistrettoPoint)
    (peer_blinding peer_value : DalekScalar) : Except MpcError MpcScalar :=
  if ¬x.is_shared then
    .error (.visibilityError "commit_and_open may only be called on shared values")
  else if pedersen peer_blinding peer_value ≠ peer_commitment then
    .error .authenticationError
  else
    .ok { value := x.value + peer_value, visibility := Visibility.publicVis }

/-- `Add for MpcScalar`: public + shared swaps the operands; the values are
added when both are public, both are shared, or the local party is the king,
and otherwise the left value passes through; the result visibility is the
minimum of the two. -/
def MpcScalar.addMpc (am_king : Bool) (x y : MpcScalar) : MpcScalar :=
  let (x, y) :=
    if x.is_public ∧ y.is_shared then (y, x) else (x, y)
  let v :=
    if (x.is_public ∧ y.is_public) ∨ (x.is_shared ∧ y.is_shared) ∨ am_king then
      x.value + y.value
    else x.value
  { value := v, visibility := Visibility.minVisibilityTwo x.visibility y.visibility }

/-- `Neg for MpcScalar`: negate the value, keep the visibility. -/
def MpcScalar.negMpc (x : MpcScalar) : MpcScalar :=
  { value := -x.value, visibility := x.visibility }

/-- `Sub for MpcScalar`: `self + rhs.neg()`. -/
def MpcScalar.subMpc (am_king : Bool) (x y : MpcScalar) : MpcScalar :=
  MpcScalar.addMpc am_king x y.negMpc

/-- The non-Beaver branch of `Mul for MpcScalar`: a direct multiplication of
the values, taken when at least one operand is not shared. -/
def MpcScalar.mulDirect (x y : MpcScalar) : MpcScalar :=
  { value := x.value * y.value
    visibility := Visibility.minVisibilityTwo x.visibility y.visibility }

/-- `Mul for MpcScalar` (the Beaver trick): when both operands are shared,
draw a triple `(a, b, c)`, open `d = lhs - a` and `e = rhs - b` with the
plain (unauthenticated) `open`, combine `d·b + e·a + c`, and the king also
absorbs `d·e`. The triple shares and the peer's two opening messages are
explicit arguments. When either operand is not shared the values multiply
directly. The only failure the source can surface is a network panic from
the `unwrap` on `open`. -/
def MpcScalar.mulMpc (am_king : Bool) (x y : MpcScalar) (a b c : DalekScalar)
    (peer_d peer_e : DalekScalar) : Except MpcNetworkError MpcScalar :=
  if x.is_shared ∧ y.is_shared then do
    let aS : MpcScalar := { value := a, visibility := Visibility.sharedVis }
    let bS : MpcScalar := { value := b, visibility := Visibility.sharedVis }
    let cS : MpcScalar := { value := c, visibility := Visibility.sharedVis }
    let lhs_minus_a ← (x.subMpc am_king aS).openShare peer_d
    let rhs_minus_b ← (y.subMpc am_king bS).openShare peer_e
    let res :=
      MpcScalar.addMpc am_king
        (MpcScalar.addMpc am_king (lhs_minus_a.mulDirect bS) (rhs_minus_b.mulDirect aS))
        cS
    let res :=
      if am_king then MpcScalar.addMpc am_king res (lhs_minus_a.mulDirect rhs_minus_b)
      else res
    .ok res
  else
    .ok (x.mulDirect y)

/-- A second multiplication written to the specification's words, for
comparison with the source: the spec requires the two masked openings to be
authenticated opens that check MACs with failure fatal, which in this layer
is `commit_and_open`; each opening therefore carries a commitment exchange
and can fail with an authentication error. -/
def MpcScalar.mulSpecOpens (pedersen : DalekScalar → DalekScalar → RistrettoPoint)
    (am_king : Bool) (x y : MpcScalar) (a b c : DalekScalar)
    (peer_comm_d : RistrettoPoint) (peer_blind_d peer_d : DalekScalar)
    (peer_comm_e : RistrettoPoint) (peer_blind_e peer_e : DalekScalar) :
    Except MpcError MpcScalar :=
  if x.is_shared ∧ y.is_shared then do
    let aS : MpcScalar := { value := a, visibility := Visibility.sharedVis }
    let bS : MpcScalar := { value := b, visibility := Visibility.sharedVis }
    let cS : MpcScalar := { value := c, visibility := Visibility.sharedVis }
    let lhs_minus_a ←
      MpcScalar.commit_and_open pedersen (x.subMpc am_king aS) peer_comm_d
        peer_blind_d peer_d
    let rhs_minus_b ←
      MpcScalar.commit_and_open pedersen (y.subMpc am_king bS) peer_comm_e
        peer_blind_e peer_e
    let res :=
      MpcScalar.addMpc am_king
        (MpcScalar.addMpc am_king (lhs_minus_a.mulDirect bS) (rhs_minus_b.mulDirect aS))
        cS
    let res :=
      if am_king then MpcScalar.addMpc am_king res (lhs_minus_a.mulDirect rhs_minus_b)
      else res
    .ok res
  else
    .ok (x.mulDirect y)

/-- `Sum for MpcScalar`: the `unwrap` of the peeked first element makes the
empty iterator a panic (the `none` case); a non-empty iterator folds addition
over all of its elements starting from the additive identity allocated with
shared visibility. -/
def MpcScalar.sumList (am_king : Bool) (l : List MpcScalar) : Option MpcScalar :=
  match l with
  | [] => none
  | _ =>
    some (l.foldl (MpcScalar.addMpc am_king)
      { value := 0, visibility := Visibility.sharedVis })

/-- `Product for MpcScalar`: the `unwrap` of the peeked first element makes
the empty iterator a panic (the `none` case); a non-empty iterator folds the
multiplication operator over all of its elements starting from the
multiplicative identity. The multiplication operator is a parameter because
`*` on shared values consumes network interaction (its own semantics is
`MpcScalar.mulMpc`). -/
def MpcScalar.productList (mulOp : MpcScalar → MpcScalar → MpcScalar)
    (one : MpcScalar) (l : List MpcScalar) : Option MpcScalar :=
  match l with
  | [] => none
  | _ => some (l.foldl mulOp one)

-- ----------------------------------------------------------------
-- Concrete states and operations used by witnesses and counterexamples
-- ----------------------------------------------------------------

/-- An executor whose results buffer already holds a value at id 0. -/
def stateWithResult0 : Executor :=
  { Executor.initial with
    results := fun j => if j = 0 then some ⟨0, ResultValue.scalar 1⟩ else none }

/-- A batch gate claiming two result ids whose function yields one output. -/
def mismatchedBatchOp : Operation :=
  { id := 0, args := [], result_ids := [0, 1],
    op_type := .gateBatch (fun _ => [ResultValue.scalar 5]), inflight_args := 0 }

/-- A gate with one resolved argument (id 0) and one unresolved (id 1). -/
def halfReadyOp : Operation :=
  { id := 5, args := [0, 1], result_ids := [2],
    op_type := .gate (fun _ => ResultValue.scalar 0), inflight_args := 0 }

/-- A network operation over the resolved argument 0, publishing under id 4. -/
def exampleNetOp : Operation :=
  { id := 4, args := [0], result_ids := [4],
    op_type := .network (fun _ => ResultValue.scalar 9), inflight_args := 0 }

/-- A gate over the resolved argument 0, publishing under id 6. -/
def exampleGateOp : Operation :=
  { id := 6, args := [0], result_ids := [6],
    op_type := .gate (fun _ => ResultValue.scalar 3), inflight_args := 0 }

/-- A small authenticated point value used to instantiate theorems. -/
def examplePoint : AuthenticatedStarkPointResult :=
  { share := ⟨0, 2⟩, mac := ⟨1, 3⟩, public_modifier := ⟨2, 4⟩ }

-- ----------------------------------------------------------------
-- Theorems
-- ----------------------------------------------------------------

/-- Helper: the first component of the authenticated-sum fold accumulates the
sum of the shares. -/
theorem sumList_fold_share (xs : List AuthenticatedStarkPointResult)
    (acc : AuthenticatedStarkPointResult × Nat) :
    (xs.foldl (fun acc y => AuthenticatedStarkPointResult.addRes acc.2 acc.1 y) acc).1.share.val
      = acc.1.share.val + (xs.map (fun z => z.share.val)).sum := by
  induction xs generalizing acc with
  | nil => simp
  | cons x xs ih =>
    simp only [List.foldl_cons, List.map_cons, List.sum_cons]
    rw [ih]
    simp [AuthenticatedStarkPointResult.addRes, MpcStarkPointResult.addRes, newPointGate]
    ring

/-- C1: `open_authenticated` on an authenticated point schedules a gate
computing the local MAC-check value `mu_local = alpha_local * (v +
public_modifier) - mac_share` over the opened value `v`, and the returned
open-result resolves, when polled, to `Ok(v)` if and only if the peer's
commitment verifies over `(mu_peer, blinder_peer)` and `mu_local + mu_peer`
equals the curve group identity (flag 1); in every other case it resolves to
an authentication error. -/
theorem c1_open_authenticated_poll
    (hash : StarkPoint → Scalar → Scalar) (key : Scalar)
    (x : AuthenticatedStarkPointResult)
    (peer_share peer_mac_check : StarkPoint)
    (peer_blinder peer_commitment : Scalar) :
    (AuthenticatedStarkPointResult.open_authenticated hash key x peer_share
        peer_mac_check peer_blinder peer_commitment).value
      = x.share.val + peer_share
  ∧ macCheckGate key (x.share.val + peer_share) x.public_modifier.val x.mac.val
      = key * ((x.share.val + peer_share) + x.public_modifier.val) - x.mac.val
  ∧ ((AuthenticatedStarkPointResult.open_authenticated hash key x peer_share
        peer_mac_check peer_blinder peer_commitment).poll
        = .ok (x.share.val + peer_share)
      ↔ hash peer_mac_check peer_blinder = peer_commitment
        ∧ macCheckGate key (x.share.val + peer_share) x.public_modifier.val x.mac.val
            + peer_mac_check = StarkPoint.identityPt)
  ∧ ((AuthenticatedStarkPointResult.open_authenticated hash key x peer_share
        peer_mac_check peer_blinder peer_commitment).poll
        = .ok (x.share.val + peer_share)
     ∨ (AuthenticatedStarkPointResult.open_authenticated hash key x peer_share
        peer_mac_check peer_blinder peer_commitment).poll
        = .error .authenticationError) := by
  have hzo : (0 : Scalar) ≠ 1 := zero_ne_one
  refine ⟨rfl, ?_, ?_, ?_⟩
  · unfold macCheckGate StarkPoint.smul
    ring
  · unfold AuthenticatedStarkPointResult.open_authenticated
      AuthenticatedStarkPointOpenResult.poll commitmentCheckGate
      AuthenticatedStarkPointResult.openNoMac MpcStarkPointResult.openShare
    by_cases h1 : hash peer_mac_check peer_blinder = peer_commitment
    · by_cases h2 :
        macCheckGate key (x.share.val + peer_share) x.public_modifier.val x.mac.val
          + peer_mac_check = StarkPoint.identityPt
      · simp [h1, h2]
      · simp [h1, h2, hzo]
    · simp [h1, hzo]
  · unfold AuthenticatedStarkPointResult.open_authenticated
      AuthenticatedStarkPointOpenResult.poll commitmentCheckGate
      AuthenticatedStarkPointResult.openNoMac MpcStarkPointResult.openShare
    by_cases h1 : hash peer_mac_check peer_blinder = peer_commitment
    · by_cases h2 :
        macCheckGate key (x.share.val + peer_share) x.public_modifier.val x.mac.val
          + peer_mac_check = StarkPoint.identityPt
      · left; simp [h1, h2]
      · right; simp [h1, h2, hzo]
    · right; simp [h1, hzo]

/-- C7: adding a public point `c` to an authenticated point adds `c` to the
share on party 0 and adds the identity on party 1 (a matching gate is
scheduled, so the id counters stay in lockstep); the MAC is unchanged and
the public modifier becomes `modifier - c`. Symmetrically, subtracting a
public point subtracts `c` on party 0 only, leaves the MAC unchanged, and
sets the modifier to `modifier + c`. -/
theorem c7_public_point_add_sub (next : Nat)
    (x : AuthenticatedStarkPointResult) (c : StarkPoint) :
    ((AuthenticatedStarkPointResult.addConst 0 next x c).1.share.val = x.share.val + c)
  ∧ ((AuthenticatedStarkPointResult.addConst 1 next x c).1.share.val
      = x.share.val + StarkPoint.identityPt)
  ∧ ((AuthenticatedStarkPointResult.addConst 0 next x c).1.mac = x.mac)
  ∧ ((AuthenticatedStarkPointResult.addConst 1 next x c).1.mac = x.mac)
  ∧ ((AuthenticatedStarkPointResult.addConst 0 next x c).1.public_modifier.val
      = x.public_modifier.val - c)
  ∧ ((AuthenticatedStarkPointResult.addConst 1 next x c).1.public_modifier.val
      = x.public_modifier.val - c)
  ∧ ((AuthenticatedStarkPointResult.addConst 0 next x c).2
      = (AuthenticatedStarkPointResult.addConst 1 next x c).2)
  ∧ ((AuthenticatedStarkPointResult.subConst 0 next x c).1.share.val = x.share.val - c)
  ∧ ((AuthenticatedStarkPointResult.subConst 1 next x c).1.share.val
      = x.share.val - StarkPoint.identityPt)
  ∧ ((AuthenticatedStarkPointResult.subConst 0 next x c).1.mac = x.mac)
  ∧ ((AuthenticatedStarkPointResult.subConst 1 next x c).1.mac = x.mac)
  ∧ ((AuthenticatedStarkPointResult.subConst 0 next x c).1.public_modifier.val
      = x.public_modifier.val + c)
  ∧ ((AuthenticatedStarkPointResult.subConst 1 next x c).1.public_modifier.val
      = x.public_modifier.val + c)
  ∧ ((AuthenticatedStarkPointResult.subConst 0 next x c).2
      = (AuthenticatedStarkPointResult.subConst 1 next x c).2) := by
  refine ⟨rfl, rfl, rfl, rfl, rfl, rfl, rfl, rfl, rfl, rfl, rfl, rfl, rfl, rfl⟩

/-- C8: negating an authenticated point negates the share and the MAC but
leaves the public modifier unchanged (the same handle is reused); and
subtracting one authenticated point from another subtracts the shares and
the MACs while the result's public modifier is the left operand's modifier,
unchanged and uncombined. -/
theorem c8_neg_sub_modifier (next : Nat)
    (x y : AuthenticatedStarkPointResult) :
    ((AuthenticatedStarkPointResult.negRes next x).1.share.val = -x.share.val)
  ∧ ((AuthenticatedStarkPointResult.negRes next x).1.mac.val = -x.mac.val)
  ∧ ((AuthenticatedStarkPointResult.negRes next x).1.public_modifier = x.public_modifier)
  ∧ ((AuthenticatedStarkPointResult.subRes next x y).1.share.val
      = x.share.val - y.share.val)
  ∧ ((AuthenticatedStarkPointResult.subRes next x y).1.mac.val
      = x.mac.val - y.mac.val)
  ∧ ((AuthenticatedStarkPointResult.subRes next x y).1.public_modifier
      = x.public_modifier) := by
  refine ⟨rfl, rfl, rfl, rfl, rfl, rfl⟩

/-- C4: the executor inserts each result id into the results buffer at most
once: delivering a second result whose id already has a stored value makes
the assertion in `insert_result` fail (aborting the executor), and a fresh
insert stores the result without touching any other entry, so a stored
result value is never overwritten. -/
theorem c4_insert_result_once (st : Executor) (r : OpResult) :
    ((∃ prev, st.results.get r.id = some prev) →
      st.insert_result r = .error "duplicate result id")
  ∧ (st.results.get r.id = none →
      ∃ st', st.insert_result r = .ok st'
        ∧ st'.results.get r.id = some r
        ∧ (∀ j, j ≠ r.id → st'.results.get j = st.results.get j)
        ∧ st'.operations = st.operations
        ∧ st'.dependencies = st.dependencies) := by
  constructor
  · rintro ⟨prev, hp⟩
    simp only [GrowableBuffer.get] at hp
    simp only [Executor.insert_result, GrowableBuffer.insert, hp]
  · intro hnone
    simp only [GrowableBuffer.get] at hnone
    refine ⟨{ st with results := fun j => if j = r.id then some r else st.results j },
      ?_, ?_, ?_, rfl, rfl⟩
    · simp only [Executor.insert_result, GrowableBuffer.insert, hnone]
    · simp [GrowableBuffer.get]
    · intro j hj
      simp [GrowableBuffer.get, hj]

/-- C4 witness: at id 0 of a buffer already holding a result, a second
delivery aborts; at the fresh id 1 of the empty executor, the insert
succeeds, stores the result, and leaves every other entry absent. -/
theorem c4_witness :
    stateWithResult0.insert_result ⟨0, ResultValue.scalar 2⟩
      = .error "duplicate result id"
  ∧ ∃ st', Executor.initial.insert_result ⟨1, ResultValue.scalar 3⟩ = .ok st'
      ∧ st'.results.get 1 = some ⟨1, ResultValue.scalar 3⟩
      ∧ (∀ j, j ≠ 1 → st'.results.get j = Executor.initial.results.get j)
      ∧ st'.operations = Executor.initial.operations
      ∧ st'.dependencies = Executor.initial.dependencies :=
  ⟨(c4_insert_result_once stateWithResult0 ⟨0, ResultValue.scalar 2⟩).1
      ⟨⟨0, ResultValue.scalar 1⟩, rfl⟩,
   (c4_insert_result_once Executor.initial ⟨1, ResultValue.scalar 3⟩).2 rfl⟩

/-- C6: evaluating a Network operation applies the gate function to the
resolved inputs to produce a payload, enqueues that payload on the outbound
network queue tagged with the operation's result id, and publishes exactly
the same payload locally as the result under the same id. -/
theorem c6_network_op (st : Executor) (op : Operation)
    (f : List ResultValue → NetworkPayload) (rid : Nat) (rest : List Nat)
    (inputs : List ResultValue)
    (hty : op.op_type = .network f)
    (hids : op.result_ids = rid :: rest)
    (hargs : op.args.mapM (fun arg => (st.results.get arg).map OpResult.value)
      = some inputs) :
    st.compute_result op
      = .ok ([⟨rid, (f inputs).toResultValue⟩],
             { st with outbound := st.outbound ++ [⟨rid, f inputs⟩] }) := by
  unfold Executor.compute_result
  rw [hargs, hty, hids]

/-- C6 witness: a concrete network operation over the resolved argument 0
sends the payload `scalar 9` tagged with result id 4 and publishes the same
payload locally under id 4. -/
theorem c6_witness :
    stateWithResult0.compute_result exampleNetOp
      = .ok ([⟨4, ResultValue.scalar 9⟩],
             { stateWithResult0 with
               outbound := stateWithResult0.outbound ++ [⟨4, ResultValue.scalar 9⟩] }) :=
  c6_network_op stateWithResult0 exampleNetOp (fun _ => ResultValue.scalar 9) 4 []
    [ResultValue.scalar 1] rfl rfl rfl

/-- C3 counterexample: a GateBatch operation with two result ids whose
function produces a single output is not treated as an invariant violation:
`compute_result` succeeds and publishes the truncated single-result set
instead of aborting. -/
theorem c3_counterexample :
    mismatchedBatchOp.result_ids.length = 2
  ∧ Executor.initial.compute_result mismatchedBatchOp
      = .ok ([⟨0, ResultValue.scalar 5⟩], Executor.initial) :=
  ⟨rfl, rfl⟩

/-- C3 (amended): the gate function of a GateBatch must produce exactly
`|result_ids|` outputs as an unchecked precondition; the executor zips the
result ids with the outputs and publishes `min(|result_ids|, |outputs|)`
results in order, so an arity mismatch silently truncates or drops results
rather than aborting. -/
theorem c3_gate_batch_zip (st : Executor) (op : Operation)
    (f : List ResultValue → List ResultValue) (inputs : List ResultValue)
    (hty : op.op_type = .gateBatch f)
    (hargs : op.args.mapM (fun arg => (st.results.get arg).map OpResult.value)
      = some inputs) :
    st.compute_result op
      = .ok ((op.result_ids.zip (f inputs)).map (fun p => ⟨p.1, p.2⟩), st)
  ∧ ((op.result_ids.zip (f inputs)).map
        (fun p => (⟨p.1, p.2⟩ : OpResult))).length
      = min op.result_ids.length (f inputs).length := by
  constructor
  · unfold Executor.compute_result
    rw [hargs, hty]
  · rw [List.length_map, List.length_zip]

/-- C3 witness: the mismatched batch operation satisfies the hypotheses
concretely and publishes exactly `min 2 1 = 1` result. -/
theorem c3_witness :
    Executor.initial.compute_result mismatchedBatchOp
      = .ok ((mismatchedBatchOp.result_ids.zip [ResultValue.scalar 5]).map
              (fun p => ⟨p.1, p.2⟩), Executor.initial)
  ∧ ((mismatchedBatchOp.result_ids.zip [ResultValue.scalar 5]).map
        (fun p => (⟨p.1, p.2⟩ : OpResult))).length
      = min mismatchedBatchOp.result_ids.length 1 :=
  c3_gate_batch_zip Executor.initial mismatchedBatchOp
    (fun _ => [ResultValue.scalar 5]) [] rfl rfl

/-- C9 counterexample: `open` on a value of Public visibility returns the
value unchanged as `Ok`, and on a value of Private visibility performs the
exchange and returns the reconstructed value — in neither case a visibility
error (the error type of `open` cannot even carry one). -/
theorem c9_counterexample :
    MpcScalar.openShare ⟨5, Visibility.publicVis⟩ 7
      = .ok ⟨5, Visibility.publicVis⟩
  ∧ MpcScalar.openShare ⟨5, Visibility.privateVis⟩ 7
      = .ok ⟨12, Visibility.publicVis⟩ := by
  constructor
  · rfl
  · simp only [MpcScalar.openShare, MpcScalar.is_public]
    norm_num
    exact fun h => Visibility.noConfusion h

/-- C9 (amended): `commit_and_open` surfaces a visibility error for every
value whose visibility is Public or Private (any non-shared value); `open`,
by contrast, returns a Public value unchanged as `Ok` and performs the
exchange for a Private value, never returning a visibility error. -/
theorem c9_visibility_errors
    (pedersen : DalekScalar → DalekScalar → RistrettoPoint)
    (x : MpcScalar) (received : DalekScalar)
    (pc : RistrettoPoint) (pb pv : DalekScalar) :
    (x.visibility ≠ Visibility.sharedVis →
      MpcScalar.commit_and_open pedersen x pc pb pv
        = .error (.visibilityError
            "commit_and_open may only be called on shared values"))
  ∧ (x.visibility = Visibility.publicVis →
      x.openShare received = .ok x)
  ∧ (x.visibility = Visibility.privateVis →
      x.openShare received
        = .ok { value := x.value + received, visibility := Visibility.publicVis }) := by
  refine ⟨?_, ?_, ?_⟩
  · intro h
    unfold MpcScalar.commit_and_open MpcScalar.is_shared
    simp [h]
  · intro h
    unfold MpcScalar.openShare MpcScalar.is_public
    simp [h]
  · intro h
    unfold MpcScalar.openShare MpcScalar.is_public
    simp [h]

/-- C9 witness: at a concrete Public value, `commit_and_open` surfaces the
visibility error while `open` returns the value unchanged. -/
theorem c9_witness :
    ((⟨4, Visibility.publicVis⟩ : MpcScalar).visibility ≠ Visibility.sharedVis)
  ∧ MpcScalar.commit_and_open (fun _ _ => 0) ⟨4, Visibility.publicVis⟩ 0 0 0
      = .error (.visibilityError
          "commit_and_open may only be called on shared values")
  ∧ MpcScalar.openShare ⟨4, Visibility.publicVis⟩ 9
      = .ok ⟨4, Visibility.publicVis⟩ :=
  ⟨by decide,
   (c9_visibility_errors (fun _ _ => 0) ⟨4, Visibility.publicVis⟩ 9 0 0 0).1 (by decide),
   (c9_visibility_errors (fun _ _ => 0) ⟨4, Visibility.publicVis⟩ 9 0 0 0).2.1 rfl⟩

/-- C10: summing authenticated points or MpcScalars (and taking the product
of MpcScalars) over an empty iterator panics — the implementations require a
non-empty iterator as an unchecked precondition — and for every non-empty
iterator they fold the operation over all elements, the point sum starting
from the first element and the scalar sum and product from the corresponding
identity; the first component of the authenticated fold accumulates the sum
of the shares. -/
theorem c10_sum_product (am_king : Bool) (next : Nat)
    (mulOp : MpcScalar → MpcScalar → MpcScalar) (one : MpcScalar) :
    AuthenticatedStarkPointResult.sumList next [] = none
  ∧ MpcScalar.sumList am_king [] = none
  ∧ MpcScalar.productList mulOp one [] = none
  ∧ (∀ x xs, AuthenticatedStarkPointResult.sumList next (x :: xs)
      = some (xs.foldl
          (fun acc y => AuthenticatedStarkPointResult.addRes acc.2 acc.1 y)
          (x, next)))
  ∧ (∀ (x : MpcScalar) xs, MpcScalar.sumList am_king (x :: xs)
      = some ((x :: xs).foldl (MpcScalar.addMpc am_king)
          { value := 0, visibility := Visibility.sharedVis }))
  ∧ (∀ (x : MpcScalar) xs, MpcScalar.productList mulOp one (x :: xs)
      = some ((x :: xs).foldl mulOp one))
  ∧ (∀ (l : List AuthenticatedStarkPointResult)
        (r : AuthenticatedStarkPointResult × Nat),
      AuthenticatedStarkPointResult.sumList next l = some r →
      r.1.share.val = (l.map (fun z => z.share.val)).sum) := by
  refine ⟨rfl, rfl, rfl, fun x xs => rfl, fun x xs => rfl, fun x xs => rfl, ?_⟩
  intro l r h
  match l with
  | [] => exact absurd h (by simp [AuthenticatedStarkPointResult.sumList])
  | x :: xs =>
    have hr : r = xs.foldl
        (fun acc y => AuthenticatedStarkPointResult.addRes acc.2 acc.1 y) (x, next) := by
      have := h
      simp only [AuthenticatedStarkPointResult.sumList, Option.some.injEq] at this
      exact this.symm
    subst hr
    rw [sumList_fold_share]
    simp

/-- C10 witness: the empty list sums to the panic case, and a concrete
one-element list folds to its single element, whose share is the sum of the
shares. -/
theorem c10_witness :
    AuthenticatedStarkPointResult.sumList 3 [] = none
  ∧ AuthenticatedStarkPointResult.sumList 3 [examplePoint] = some (examplePoint, 3)
  ∧ examplePoint.share.val = ([examplePoint].map (fun z => z.share.val)).sum :=
  ⟨(c10_sum_product false 3 (fun a _ => a) ⟨1, Visibility.publicVis⟩).1,
   rfl,
   (c10_sum_product false 3 (fun a _ => a) ⟨1, Visibility.publicVis⟩).2.2.2.2.2.2
     [examplePoint] (examplePoint, 3) rfl⟩

/-- C2 counterexample: at a concrete input where the peer's commitment does
not verify, the multiplication written to the spec's words (authenticated
opens of the masked values, failure fatal) fails with an authentication
error, while the source's multiplication uses the plain unauthenticated
`open` and returns a value — no MAC is checked. -/
theorem c2_counterexample :
    MpcScalar.mulSpecOpens (fun _ _ => 0) true
        ⟨2, Visibility.sharedVis⟩ ⟨3, Visibility.sharedVis⟩ 1 1 1 1 0 0 1 0 0
      = .error .authenticationError
  ∧ MpcScalar.mulMpc true
        ⟨2, Visibility.sharedVis⟩ ⟨3, Visibility.sharedVis⟩ 1 1 1 0 0
      = .ok ⟨6, Visibility.sharedVis⟩ := by
  exact ⟨rfl, rfl⟩

/-- C2 (amended): in the Beaver multiplication of two shared scalars, the
openings of the masked values `d = x - a` and `e = y - b` use the plain
unauthenticated `open` — no MAC is checked and no authentication error can be
produced; the result is the Beaver combination `d·b + e·a + c` with the king
additionally absorbing `d·e`. The authenticated point opening used by the
scalar-times-point multiplication is likewise the unauthenticated sum of the
shares, ignoring the MAC and modifier entirely. -/
theorem c2_beaver_opens_unauthenticated (am_king : Bool) (x y : MpcScalar)
    (a b c peer_d peer_e : DalekScalar)
    (hx : x.visibility = Visibility.sharedVis)
    (hy : y.visibility = Visibility.sharedVis) :
    MpcScalar.mulMpc am_king x y a b c peer_d peer_e
      = .ok { value := (x.value - a + peer_d) * b + (y.value - b + peer_e) * a + c
                + (if am_king then (x.value - a + peer_d) * (y.value - b + peer_e) else 0),
              visibility := Visibility.sharedVis }
  ∧ (∀ err : MpcNetworkError,
      MpcScalar.mulMpc am_king x y a b c peer_d peer_e ≠ .error err)
  ∧ (∀ (xa : AuthenticatedStarkPointResult) (p : StarkPoint),
      xa.openNoMac p = xa.share.val + p) := by
  obtain ⟨xv, xvis⟩ := x
  obtain ⟨yv, yvis⟩ := y
  simp only at hx hy
  subst hx
  subst hy
  have h1 : MpcScalar.mulMpc am_king ⟨xv, Visibility.sharedVis⟩
      ⟨yv, Visibility.sharedVis⟩ a b c peer_d peer_e
      = .ok { value := (xv - a + peer_d) * b + (yv - b + peer_e) * a + c
                + (if am_king then (xv - a + peer_d) * (yv - b + peer_e) else 0),
              visibility := Visibility.sharedVis } := by
    cases am_king <;>
      · simp only [MpcScalar.mulMpc, MpcScalar.subMpc, MpcScalar.addMpc, MpcScalar.negMpc,
          MpcScalar.openShare, MpcScalar.mulDirect, MpcScalar.is_shared, MpcScalar.is_public,
          Visibility.minVisibilityTwo, Visibility.rank, bind, Except.bind]
        simp
        ring
  refine ⟨h1, ?_, fun xa p => rfl⟩
  intro err hcontra
  rw [h1] at hcontra
  exact Except.noConfusion hcontra

/-- C2 witness: at a concrete shared input the multiplication resolves to
the Beaver combination (here `6 = 2 * 3`), with no error case. -/
theorem c2_witness :
    ((⟨2, Visibility.sharedVis⟩ : MpcScalar).visibility = Visibility.sharedVis)
  ∧ MpcScalar.mulMpc false
        ⟨2, Visibility.sharedVis⟩ ⟨3, Visibility.sharedVis⟩ 2 3 6 0 0
      = .ok ⟨6, Visibility.sharedVis⟩ := by
  refine ⟨rfl, ?_⟩
  have h := (c2_beaver_opens_unauthenticated false ⟨2, Visibility.sharedVis⟩
    ⟨3, Visibility.sharedVis⟩ 2 3 6 0 0 rfl rfl).1
  rw [h]
  norm_num

/-- Helper: the dependency-registration fold leaves the entry of an id not
among the arguments unchanged. -/
theorem pushDependent_fold_not_mem (args : List Nat) (d : GrowableBuffer (List Nat))
    (v arg : Nat) (h : arg ∉ args) :
    (args.foldl (pushDependent v) d).get arg = d.get arg := by
  induction args generalizing d with
  | nil => rfl
  | cons a rest ih =>
    have hne : arg ≠ a := fun he => h (he ▸ List.mem_cons_self a rest)
    have hrest : arg ∉ rest := fun hm => h (List.mem_cons_of_mem _ hm)
    simp only [List.foldl_cons]
    rw [ih (pushDependent v d a) hrest]
    simp [pushDependent, GrowableBuffer.insert, GrowableBuffer.get, hne]

/-- Helper: after the dependency-registration fold over duplicate-free
arguments, the entry of each argument is its previous list (empty if absent)
with the operation id appended. -/
theorem pushDependent_fold_mem (args : List Nat) (d : GrowableBuffer (List Nat))
    (v arg : Nat) (hnd : args.Nodup) (hm : arg ∈ args) :
    (args.foldl (pushDependent v) d).get arg
      = some ((d.get arg).getD [] ++ [v]) := by
  induction args generalizing d with
  | nil => cases hm
  | cons a rest ih =>
    have hnd' : rest.Nodup := (List.nodup_cons.mp hnd).2
    have hanr : a ∉ rest := (List.nodup_cons.mp hnd).1
    simp only [List.foldl_cons]
    rcases List.mem_cons.mp hm with he | hr
    · subst he
      rw [pushDependent_fold_not_mem rest (pushDependent v d arg) v arg hanr]
      simp [pushDependent, GrowableBuffer.insert, GrowableBuffer.get]
    · have hne : arg ≠ a := fun he => hanr (he ▸ hr)
      rw [ih (pushDependent v d a) hnd' hr]
      simp [pushDependent, GrowableBuffer.insert, GrowableBuffer.get, hne]

/-- C5 counterexample: handling a new operation whose argument 0 is already
resolved and whose argument 1 is not appends the operation to the dependent
list of the resolved argument 0 as well, contradicting the claim that only
unresolved arguments receive the dependent entry. -/
theorem c5_counterexample :
    (stateWithResult0.results.get 0).isSome = true
  ∧ Except.map (fun s => s.dependencies.get 0)
      (Executor.handle_new_operation 1 stateWithResult0 halfReadyOp)
      = .ok (some [5]) :=
  ⟨rfl, rfl⟩

/-- C5 (amended): on a newly-scheduled operation the executor sets
`inflight_args` to the number of arguments without results; if that number
is zero it stores and immediately evaluates the operation (here stated for a
single-output gate with no dependents, no prior result, and no waiters on
its result id: the computed value appears in the results buffer); otherwise
it appends the operation to the dependent list of every argument — resolved
arguments included — and stores the operation in the operations buffer. -/
theorem c5_handle_new_operation (fuel : Nat) (st : Executor) (op : Operation) :
    ((op.args.filterMap (fun id => st.results.get id)).length ≠ op.args.length →
      (Executor.handle_new_operation fuel st op
        = .ok { st with
                dependencies := op.args.foldl (pushDependent op.id) st.dependencies,
                operations := (st.operations.insert op.id
                  { op with inflight_args :=
                      op.args.length
                        - (op.args.filterMap (fun id => st.results.get id)).length }).2 })
      ∧ (op.args.Nodup → ∀ arg ∈ op.args,
          (op.args.foldl (pushDependent op.id) st.dependencies).get arg
            = some ((st.dependencies.get arg).getD [] ++ [op.id])))
  ∧ (∀ (f : List ResultValue → ResultValue) (inputs : List ResultValue),
      op.op_type = .gate f →
      (op.args.filterMap (fun id => st.results.get id)).length = op.args.length →
      op.args.mapM (fun a => (st.results.get a).map OpResult.value) = some inputs →
      st.dependencies.get op.result_id = none →
      st.results.get op.result_id = none →
      st.waiters op.result_id = [] →
      Except.map (fun s => s.results.get op.result_id)
          (Executor.handle_new_operation (fuel + 1) st op)
        = .ok (some ⟨op.result_id, f inputs⟩)) := by
  constructor
  · intro hn
    have hle : (op.args.filterMap (fun id => st.results.get id)).length
        ≤ op.args.length := List.length_filterMap_le _ _
    have hne : op.args.length
        - (op.args.filterMap (fun id => st.results.get id)).length ≠ 0 := by
      intro h0
      exact hn (le_antisymm hle (Nat.sub_eq_zero_iff_le.mp h0))
    constructor
    · unfold Executor.handle_new_operation
      rw [if_neg hne]
    · intro hnd arg hmem
      exact pushDependent_fold_mem op.args st.dependencies op.id arg hnd hmem
  · intro f inputs hty hready hinputs hdeps hres hwait
    unfold Executor.handle_new_operation
    rw [hready]
    simp only [Nat.sub_self]
    simp [GrowableBuffer.get, List.mapM, Operation.result_id] at hinputs hdeps hres hwait
    simp [Executor.execute_operations, Executor.execute_one, Executor.compute_result,
      Executor.append_ready_ops, Executor.insert_result, Executor.wake_waiters_on_result,
      GrowableBuffer.take, GrowableBuffer.insert, GrowableBuffer.get, Operation.result_id,
      hty, hinputs, hdeps, hres, hwait, bind, Except.bind, pure, Except.pure, Except.map,
      List.foldlM_cons, List.foldlM_nil]

/-- C5 witness: the half-ready operation (one resolved, one unresolved
argument) takes the dependency-registration branch, appending itself to the
unresolved argument's dependent list; and the fully-ready gate over the
resolved argument 0 is evaluated immediately, its value appearing in the
results buffer under its result id. -/
theorem c5_witness :
    ((halfReadyOp.args.filterMap
        (fun id => stateWithResult0.results.get id)).length ≠ halfReadyOp.args.length)
  ∧ (halfReadyOp.args.foldl (pushDependent halfReadyOp.id)
        stateWithResult0.dependencies).get 1
      = some ((stateWithResult0.dependencies.get 1).getD [] ++ [halfReadyOp.id])
  ∧ Except.map (fun s => s.results.get exampleGateOp.result_id)
        (Executor.handle_new_operation 1 stateWithResult0 exampleGateOp)
      = .ok (some ⟨exampleGateOp.result_id, ResultValue.scalar 3⟩) :=
  ⟨by decide,
   ((c5_handle_new_operation 0 stateWithResult0 halfReadyOp).1 (by decide)).2
     (by decide) 1 (by decide),
   (c5_handle_new_operation 0 stateWithResult0 exampleGateOp).2
     (fun _ => ResultValue.scalar 3) [ResultValue.scalar 1] rfl rfl rfl rfl rfl rfl⟩
